import Mathlib

/-!
Verification development for the oniric-backend API gateway.

The definitions below are a shallow embedding of the TypeScript source:
  * `auth` / `optionalAuth`      — src middleware (auth.ts, two-issuer variant)
  * `getUserById`                — src lib/supabase.ts
  * dreams route handlers        — src/api/routes/dreams.ts
  * subscriptions route handlers — src routes/subscriptions.ts
  * profile route handlers       — src routes/profile.ts

JavaScript string operations (`startsWith`, `split`, `includes`) are
re-implemented over character lists so that every definition reduces in the
kernel.  JWT tokens are modelled abstractly: `jwt.decode` is the `decoded`
field of a `Token` (payload extraction without signature verification) and
`jwt.verify token secret` succeeds exactly when the token's signature is
valid under `secret` (field `sig`).
-/

namespace Oniric

/-! ### JavaScript string helpers -/

/-- `charsStartsWith l p` : does `l` start with letters `p`? -/
def charsStartsWith : List Char → List Char → Bool
  | _, [] => true
  | [], _ :: _ => false
  | c :: cs, p :: ps => c == p && charsStartsWith cs ps

/-- Contiguous-substring test on character lists (JS `String.prototype.includes`). -/
def charsContains : List Char → List Char → Bool
  | [], pat => pat.isEmpty
  | l@(_ :: cs), pat => charsStartsWith l pat || charsContains cs pat

/-- JS `s.startsWith(pre)`. -/
def jsStartsWith (s pre : String) : Bool :=
  charsStartsWith s.data pre.data

/-- JS `s.includes(pat)` (contiguous substring). -/
def jsIncludes (s pat : String) : Bool :=
  charsContains s.data pat.data

/-- Splitting accumulator for `jsSplit`. -/
def jsSplitAux (sep : Char) : List Char → List Char → List (List Char)
  | [], acc => [acc.reverse]
  | c :: cs, acc =>
    if c == sep then acc.reverse :: jsSplitAux sep cs []
    else jsSplitAux sep cs (c :: acc)

/-- JS `s.split(sep)` for a single-character separator. -/
def jsSplit (s : String) (sep : Char) : List String :=
  (jsSplitAux sep s.data []).map (fun l => String.mk l)

/-! ### Data model -/

/-- A resolved user record (row of the `profiles` table), as the auth
middleware consumes it: `req.user?.role?.includes('admin')` also works when
`role` is null, hence `role : Option String`. -/
structure Identity where
  id : String
  email : String
  role : Option String
  deriving Repr, DecidableEq

/-- Result of `jwt.decode`: either a string payload or an object payload.
The middleware only inspects the `sub` and `id` fields of an object payload. -/
inductive Decoded where
  | str (s : String)
  | obj (sub : Option String) (idClaim : Option String)
  deriving Repr, DecidableEq

/-- Abstract JWT: `decoded` is what `jwt.decode` returns (`none` = decode
failure), `sig` is the secret under which `jwt.verify` succeeds (`none` = the
signature is valid under no secret). -/
structure Token where
  decoded : Option Decoded
  sig : Option String
  deriving Repr, DecidableEq

/-- `jwt.verify token secret` succeeds without throwing. -/
def verifyOk (t : Token) (secret : String) : Bool :=
  t.sig == some secret

/-- The environment variables the middleware reads:
`SUPABASE_JWT_SECRET` and `JWT_SECRET`. -/
structure Config where
  supabaseJwtSecret : Option String
  jwtSecret : Option String
  deriving Repr, DecidableEq

/-- Response of the supabase `.from('profiles').select('*').eq('id', _).single()`
call: a data row and/or an error. -/
structure StoreResp where
  data : Option Identity
  error : Option String
  deriving Repr, DecidableEq

/-- The user store: what the supabase profiles lookup answers per user id. -/
def UserStore : Type := String → StoreResp

/-- The jwt library's view of each token string. -/
def Jwt : Type := String → Token

/-- `ApiError` from middleware/errorHandler.ts. -/
structure ApiError where
  statusCode : Nat
  message : String
  deriving Repr, DecidableEq

/-- A thrown JS value: an `ApiError` or a plain `Error`. -/
inductive Thrown where
  | api (e : ApiError)
  | js (msg : String)
  deriving Repr, DecidableEq

/-- JS truthiness of an optional string field (`undefined`, `null` and `""`
are falsy). -/
def truthy : Option String → Bool
  | none => false
  | some s => !(s == "")

/-- The per-request context the middleware populates
(`req.user` / `req.userId`). -/
structure Ctx where
  user : Option Identity
  userId : Option String
  deriving Repr, DecidableEq

def emptyCtx : Ctx := ⟨none, none⟩

/-- Outcome of a middleware run: `next()` with the resulting request context,
or `next(error)` with an `ApiError`. -/
inductive MWResult where
  | proceed (ctx : Ctx)
  | reject (e : ApiError)
  deriving Repr, DecidableEq

/-! ### Identity Resolver (lib/supabase.ts `getUserById`) -/

/-- `getUserById`: throws (`.error`) when the store reports an error,
otherwise returns the row (possibly null). -/
def getUserById (store : UserStore) (userId : String) : Except String (Option Identity) :=
  match (store userId).error with
  | some e => .error ("Error fetching user: " ++ e)
  | none => .ok (store userId).data

/-! ### Token extraction (shared by both middleware variants) -/

/-- Header processing of both variants: require the `Bearer ` prefix, take
`authHeader.split(' ')[1]`, and require it non-empty. -/
def extractToken (authHeader : Option String) : Option String :=
  match authHeader with
  | none => none
  | some h =>
    if jsStartsWith h "Bearer " then
      let tok := (jsSplit h ' ').getD 1 ""
      if tok == "" then none else some tok
    else none

/-! ### Strict middleware `auth` -/

/-- The decode-and-verify stage of `auth` (the two-issuer branching):
payload-shape dispatch on `sub` / `id`, then signature verification against
the branch's secret. -/
def verifyStage (cfg : Config) (t : Token) : Except Thrown String :=
  match t.decoded with
  | none => .error (.js "Invalid token format")
  | some (.str _) => .error (.js "Invalid token format")
  | some (.obj sub idClaim) =>
    if truthy sub then
      match cfg.supabaseJwtSecret with
      | none => .error (.api ⟨500, "Supabase JWT secret not configured"⟩)
      | some sec =>
        if verifyOk t sec then .ok (sub.getD "")
        else .error (.api ⟨401, "Invalid or expired Supabase token"⟩)
    else if truthy idClaim then
      match cfg.jwtSecret with
      | none => .error (.api ⟨500, "JWT secret not configured"⟩)
      | some sec =>
        if verifyOk t sec then .ok (idClaim.getD "")
        else .error (.js "invalid signature")
    else .error (.js "Invalid token payload")

/-- Body of the inner `try` of `auth`: verify the token, look the subject up,
fail on a missing record. Any `.error` is what the inner block throws. -/
def authInner (cfg : Config) (store : UserStore) (t : Token) : Except Thrown Identity :=
  match verifyStage cfg t with
  | .error e => .error e
  | .ok userId =>
    match getUserById store userId with
    | .error msg => .error (.js msg)
    | .ok none => .error (.api ⟨401, "User not found"⟩)
    | .ok (some u) => .ok u

/-- Strict middleware `auth`: reject 401 on a missing/malformed header or
empty token; otherwise run the inner block, whose every failure the inner
`catch` collapses to 401 `Invalid or expired token`; on success attach
`req.user = user` and `req.userId = user.id`. -/
def auth (cfg : Config) (store : UserStore) (jwtEnv : Jwt) (authHeader : Option String) :
    MWResult :=
  match extractToken authHeader with
  | none => .reject ⟨401, "Authorization token required"⟩
  | some tokStr =>
    match authInner cfg store (jwtEnv tokStr) with
    | .ok u => .proceed ⟨some u, some u.id⟩
    | .error _ => .reject ⟨401, "Invalid or expired token"⟩

/-! ### Optional middleware `optionalAuth` -/

/-- The decode stage of `optionalAuth`. The `sub` branch takes the subject
straight from the unverified payload (the source performs no `jwt.verify`
there); the `id` branch verifies against `JWT_SECRET`. `none` means the
middleware gives up and continues anonymously. -/
def optVerifyStage (cfg : Config) (t : Token) : Option String :=
  match t.decoded with
  | none => none
  | some (.str _) => none
  | some (.obj sub idClaim) =>
    if truthy sub then some (sub.getD "")
    else if truthy idClaim then
      match cfg.jwtSecret with
      | none => none
      | some sec =>
        if verifyOk t sec then some (idClaim.getD "") else none
    else none

/-- Optional middleware `optionalAuth`: never rejects; attaches identity only
when the decode stage yields a subject and the lookup returns a row. -/
def optionalAuth (cfg : Config) (store : UserStore) (jwtEnv : Jwt)
    (authHeader : Option String) : MWResult :=
  match extractToken authHeader with
  | none => .proceed emptyCtx
  | some tokStr =>
    match optVerifyStage cfg (jwtEnv tokStr) with
    | none => .proceed emptyCtx
    | some userId =>
      match getUserById store userId with
      | .error _ => .proceed emptyCtx
      | .ok none => .proceed emptyCtx
      | .ok (some u) => .proceed ⟨some u, some u.id⟩

/-! ### Authorization Guard helper

`req.user?.role?.includes('admin')` as the subscription handlers evaluate it. -/

def isAdmin (ctx : Ctx) : Bool :=
  match ctx.user with
  | none => false
  | some u =>
    match u.role with
    | none => false
    | some r => jsIncludes r "admin"

/-! ### Dreams routes (src/api/routes/dreams.ts)

The supabase table is modelled as a `List Dream`; the query chains
`.eq(col, v)` / `.single()` become `List.filter` / `List.find?`.  A handler
returns the table after the request together with the HTTP outcome. -/

/-- Row of the `dreams` table (the claim-relevant columns). -/
structure Dream where
  id : String
  user_id : String
  title : String
  description : String
  deriving Repr, DecidableEq

/-- Body of a dream update request (fields absent from the body are not
touched by `supabase.update`). -/
structure DreamUpdates where
  user_id : Option String
  title : Option String
  description : Option String
  deriving Repr, DecidableEq

/-- `delete updates.user_id` in the PUT handler. -/
def stripDreamUserId (u : DreamUpdates) : DreamUpdates :=
  { u with user_id := none }

/-- `supabase.update(updates)` on one row: present fields overwrite. -/
def applyDreamUpdates (d : Dream) (u : DreamUpdates) : Dream :=
  { d with
    user_id := u.user_id.getD d.user_id
    title := u.title.getD d.title
    description := u.description.getD d.description }

/-- `GET /api/dreams` — dreams of the user id given in the query string
(400 when it is missing); the authenticated context is never consulted. -/
def getDreams (db : List Dream) (ctx : Ctx) (queryUserId : Option String) :
    Except ApiError (List Dream) :=
  if truthy queryUserId then
    .ok (db.filter (fun d => d.user_id == queryUserId.getD ""))
  else .error ⟨400, "User ID is required"⟩

/-- `GET /api/dreams/:id` — any dream by primary key; the authenticated
context is never consulted. -/
def getDreamById (db : List Dream) (ctx : Ctx) (idParam : String) :
    Except ApiError Dream :=
  if idParam == "" then .error ⟨400, "Dream ID is required"⟩
  else
    match db.find? (fun d => d.id == idParam) with
    | some d => .ok d
    | none => .error ⟨404, "Dream not found"⟩

/-- `PUT /api/dreams/:id` — drops `user_id` from the body, then updates the
row by primary key.  The source contains no ownership or role check: `ctx` is
never consulted. -/
def dreamsPut (db : List Dream) (ctx : Ctx) (idParam : String) (body : DreamUpdates) :
    List Dream × Except ApiError Dream :=
  if idParam == "" then (db, .error ⟨400, "Dream ID is required"⟩)
  else
    let updates := stripDreamUserId body
    let db' := db.map (fun d => if d.id == idParam then applyDreamUpdates d updates else d)
    match db'.find? (fun d => d.id == idParam) with
    | some d => (db', .ok d)
    | none => (db, .error ⟨404, "Dream not found"⟩)

/-- `DELETE /api/dreams/:id` — deletes the row by primary key.  The source
contains no ownership or role check: `ctx` is never consulted. -/
def dreamsDelete (db : List Dream) (ctx : Ctx) (idParam : String) :
    List Dream × Except ApiError Unit :=
  if idParam == "" then (db, .error ⟨400, "Dream ID is required"⟩)
  else (db.filter (fun d => !(d.id == idParam)), .ok ())

/-! ### Subscriptions routes (src routes/subscriptions.ts) -/

/-- Row of the `subscriptions` table. -/
structure Subscription where
  id : String
  user_id : String
  tier : String
  price : String
  status : String
  start_date : String
  end_date : Option String
  deriving Repr, DecidableEq

/-- Row of the `profiles` table as the subscription handlers touch it. -/
structure ProfileRow where
  id : String
  tier : String
  is_premium : Bool
  deriving Repr, DecidableEq

/-- Body of a subscription update request. -/
structure SubUpdates where
  user_id : Option String
  tier : Option String
  price : Option String
  status : Option String
  end_date : Option String
  deriving Repr, DecidableEq

def applySubUpdates (s : Subscription) (u : SubUpdates) : Subscription :=
  { s with
    user_id := u.user_id.getD s.user_id
    tier := u.tier.getD s.tier
    price := u.price.getD s.price
    status := u.status.getD s.status
    end_date := match u.end_date with | some e => some e | none => s.end_date }

/-- The profile write subscription create/update performs:
`tier` and `is_premium := tier !== 'free'` for the subscription's owner. -/
def syncProfileTier (profiles : List ProfileRow) (ownerId tier : String) :
    List ProfileRow :=
  profiles.map (fun p =>
    if p.id == ownerId then { p with tier := tier, is_premium := !(tier == "free") } else p)

/-- `POST /api/subscriptions` — ownership guard
(`body.user_id !== req.userId && !req.user?.role?.includes('admin')` ⇒ 403)
before inserting; on success also syncs the owner's profile tier. -/
def subsPost (subs : List Subscription) (profiles : List ProfileRow) (ctx : Ctx)
    (body : Subscription) :
    (List Subscription × List ProfileRow) × Except ApiError Subscription :=
  if !(some body.user_id == ctx.userId) && !(isAdmin ctx) then
    ((subs, profiles), .error ⟨403, "Cannot create subscription for another user"⟩)
  else
    ((subs ++ [body], syncProfileTier profiles body.user_id body.tier), .ok body)

/-- `PUT /api/subscriptions/:id` — drops `user_id` from the body, fetches the
row, applies the ownership guard, then updates; a tier change also syncs the
owner's profile. -/
def subsPut (subs : List Subscription) (profiles : List ProfileRow) (ctx : Ctx)
    (idParam : String) (body : SubUpdates) :
    (List Subscription × List ProfileRow) × Except ApiError Subscription :=
  if idParam == "" then ((subs, profiles), .error ⟨400, "Subscription ID is required"⟩)
  else
    let updates := { body with user_id := none }
    match subs.find? (fun s => s.id == idParam) with
    | none => ((subs, profiles), .error ⟨404, "Subscription not found"⟩)
    | some s =>
      if !(some s.user_id == ctx.userId) && !(isAdmin ctx) then
        ((subs, profiles), .error ⟨403, "Cannot update subscription for another user"⟩)
      else
        let subs' := subs.map (fun x => if x.id == idParam then applySubUpdates x updates else x)
        let profiles' :=
          if truthy updates.tier then syncProfileTier profiles s.user_id (updates.tier.getD "")
          else profiles
        ((subs', profiles'), .ok (applySubUpdates s updates))

/-- `PUT /api/subscriptions/:id/cancel` — fetches the row, applies the
ownership guard, then sets `status := 'cancelled'` / `end_date := now` and
resets the owner's profile to the free tier. -/
def subsCancel (subs : List Subscription) (profiles : List ProfileRow) (ctx : Ctx)
    (idParam : String) (now : String) :
    (List Subscription × List ProfileRow) × Except ApiError Subscription :=
  match subs.find? (fun s => s.id == idParam) with
  | none => ((subs, profiles), .error ⟨404, "Subscription not found"⟩)
  | some s =>
    if !(some s.user_id == ctx.userId) && !(isAdmin ctx) then
      ((subs, profiles), .error ⟨403, "Cannot cancel subscription for another user"⟩)
    else
      let cancelled := { s with status := "cancelled", end_date := some now }
      let subs' := subs.map (fun x => if x.id == idParam then { x with status := "cancelled", end_date := some now } else x)
      let profiles' := profiles.map (fun p =>
        if p.id == s.user_id then { p with tier := "free", is_premium := false } else p)
      ((subs', profiles'), .ok cancelled)

/-! ### Profile route (src routes/profile.ts)

A profile row is modelled extensionally as a column-to-value map so that the
frame property "no other column changes" is expressible; the request body is
the parsed JSON object, an association list of submitted fields. -/

/-- The keys the PUT handler deletes from the body before persisting. -/
def restrictedKeys : List String :=
  ["id", "tier", "is_premium", "created_at", "updated_at"]

/-- `delete updates.id; delete updates.tier; ...` -/
def stripRestricted (body : List (String × String)) : List (String × String) :=
  body.filter (fun kv => !(restrictedKeys.contains kv.fst))

/-- `supabase.update(updates)` on a row: submitted columns overwrite, all
others keep their stored value. -/
def applyRowUpdates (row : String → String) (updates : List (String × String)) :
    String → String :=
  fun k => match updates.lookup k with
    | some v => v
    | none => row k

/-- `PUT /api/profile` — requires an authenticated user id, strips the
restricted fields from the body, then updates the requester's own row. -/
def profilePut (ctx : Ctx) (row : String → String) (body : List (String × String)) :
    Except ApiError (String → String) :=
  match ctx.userId with
  | none => .error ⟨401, "Authentication required"⟩
  | some _ => .ok (applyRowUpdates row (stripRestricted body))

/-! ### Helper lemmas -/

/-- Inversion for a successful strict inner block: success means the verify
stage produced a subject and the lookup returned that user's row. -/
theorem authInner_ok_inv {cfg : Config} {store : UserStore} {t : Token} {u : Identity}
    (h : authInner cfg store t = .ok u) :
    ∃ s, verifyStage cfg t = .ok s ∧ getUserById store s = .ok (some u) := by
  unfold authInner at h
  cases hv : verifyStage cfg t with
  | error e => rw [hv] at h; cases h
  | ok s =>
    rw [hv] at h
    dsimp only at h
    cases hg : getUserById store s with
    | error m => rw [hg] at h; cases h
    | ok d =>
      rw [hg] at h
      cases d with
      | none => cases h
      | some u' => cases h; exact ⟨s, rfl, hg⟩

/-- When the strict verify stage accepts a token, the optional decode stage
reaches the lookup with the same subject. -/
theorem optStage_of_stage {cfg : Config} {t : Token} {s : String}
    (h : verifyStage cfg t = .ok s) : optVerifyStage cfg t = some s := by
  obtain ⟨sup, jsec⟩ := cfg
  obtain ⟨dec, sig⟩ := t
  unfold verifyStage at h
  unfold optVerifyStage
  cases dec with
  | none => cases h
  | some d =>
    cases d with
    | str sp => cases h
    | obj sub idClaim =>
      dsimp only at h ⊢
      by_cases hs : truthy sub = true
      · rw [if_pos hs] at h
        rw [if_pos hs]
        cases sup with
        | none => cases h
        | some sec =>
          dsimp only at h
          by_cases hv : verifyOk ⟨some (.obj sub idClaim), sig⟩ sec = true
          · rw [if_pos hv] at h
            exact congrArg some (Except.ok.inj h)
          · rw [if_neg hv] at h; cases h
      · rw [if_neg hs] at h
        rw [if_neg hs]
        by_cases hi : truthy idClaim = true
        · rw [if_pos hi] at h
          rw [if_pos hi]
          cases jsec with
          | none => cases h
          | some sec =>
            dsimp only at h ⊢
            by_cases hv : verifyOk ⟨some (.obj sub idClaim), sig⟩ sec = true
            · rw [if_pos hv] at h
              rw [if_pos hv]
              exact congrArg some (Except.ok.inj h)
            · rw [if_neg hv] at h; cases h
        · rw [if_neg hi] at h; cases h

/-! ### Claim theorems -/

/-- C1: the claim says both authenticator variants verify the signature
against the selected branch's secret before attaching identity.  The code
violates this: `optionalAuth` attaches identity for a `sub`-shaped payload
with no valid signature at all (`sig = none`), performing no `jwt.verify` in
that branch, while strict `auth` rejects the very same request. -/
theorem optionalAuth_accepts_unsigned_sub_token :
    optionalAuth ⟨some "supsec", some "locsec"⟩
      (fun uid => if uid == "u1" then ⟨some ⟨"u1", "a@b", some "user"⟩, none⟩
        else ⟨none, some "no rows"⟩)
      (fun _ => ⟨some (.obj (some "u1") none), none⟩)
      (some "Bearer forged")
      = .proceed ⟨some ⟨"u1", "a@b", some "user"⟩, some "u1"⟩ ∧
    auth ⟨some "supsec", some "locsec"⟩
      (fun uid => if uid == "u1" then ⟨some ⟨"u1", "a@b", some "user"⟩, none⟩
        else ⟨none, some "no rows"⟩)
      (fun _ => ⟨some (.obj (some "u1") none), none⟩)
      (some "Bearer forged")
      = .reject ⟨401, "Invalid or expired token"⟩ := by
  constructor <;> decide

/-- C3: the claim says configuration failures (missing signing secret) are
surfaced as 500.  The code constructs that `ApiError(500)` inside the inner
`try`, so the inner `catch` swallows it and the client receives the generic
401 instead: with no platform secret configured, the inner block throws the
500 error, yet the middleware rejects with 401 `Invalid or expired token`. -/
theorem auth_swallows_misconfiguration_500 :
    authInner ⟨none, some "locsec"⟩ (fun _ => ⟨none, some "no rows"⟩)
        ⟨some (.obj (some "u1") none), some "anysig"⟩
      = .error (.api ⟨500, "Supabase JWT secret not configured"⟩) ∧
    auth ⟨none, some "locsec"⟩ (fun _ => ⟨none, some "no rows"⟩)
        (fun _ => ⟨some (.obj (some "u1") none), some "anysig"⟩)
        (some "Bearer tok")
      = .reject ⟨401, "Invalid or expired token"⟩ := by
  exact ⟨rfl, by decide⟩

/-- C4 counterexample: an Identity Resolver transport/store error is not
propagated as a 500-class `UpstreamUnavailable`; the middleware rejects with
401 `Invalid or expired token` (the token below verifies under the platform
secret, and the store reports an error). -/
theorem store_error_not_surfaced_500 :
    auth ⟨some "supsec", some "locsec"⟩
      (fun _ => ⟨none, some "network failure"⟩)
      (fun _ => ⟨some (.obj (some "u1") none), some "supsec"⟩)
      (some "Bearer tok")
      = .reject ⟨401, "Invalid or expired token"⟩ := by decide

/-- C4 (amended): a transport/store error in the user lookup makes strict
authentication fail 401 with the generic message, and optional
authentication continue with an empty context; no 500-class error is
produced. -/
theorem store_error_gives_401 (cfg : Config) (store : UserStore) (jwtEnv : Jwt)
    (hdr tokStr s msg : String)
    (hx : extractToken (some hdr) = some tokStr)
    (hv : verifyStage cfg (jwtEnv tokStr) = .ok s)
    (he : (store s).error = some msg) :
    auth cfg store jwtEnv (some hdr) = .reject ⟨401, "Invalid or expired token"⟩ ∧
    optionalAuth cfg store jwtEnv (some hdr) = .proceed emptyCtx := by
  have hg : getUserById store s = .error ("Error fetching user: " ++ msg) := by
    unfold getUserById; rw [he]
  constructor
  · unfold auth
    rw [hx]
    dsimp only
    unfold authInner
    rw [hv]
    dsimp only
    rw [hg]
  · unfold optionalAuth
    rw [hx]
    dsimp only
    rw [optStage_of_stage hv]
    dsimp only
    rw [hg]

theorem store_error_gives_401_witness :
    auth ⟨some "supsec", some "locsec"⟩ (fun _ => ⟨none, some "network failure"⟩)
        (fun _ => ⟨some (.obj (some "u1") none), some "supsec"⟩) (some "Bearer tok")
      = .reject ⟨401, "Invalid or expired token"⟩ ∧
    optionalAuth ⟨some "supsec", some "locsec"⟩ (fun _ => ⟨none, some "network failure"⟩)
        (fun _ => ⟨some (.obj (some "u1") none), some "supsec"⟩) (some "Bearer tok")
      = .proceed emptyCtx :=
  store_error_gives_401 ⟨some "supsec", some "locsec"⟩
    (fun _ => ⟨none, some "network failure"⟩)
    (fun _ => ⟨some (.obj (some "u1") none), some "supsec"⟩)
    "Bearer tok" "tok" "u1" "network failure" rfl rfl rfl

/-- C5: a missing Authorization header, a header without the `Bearer `
prefix, or an empty token value makes strict authentication reject 401 and
optional authentication continue with an empty context. -/
theorem header_failures (cfg : Config) (store : UserStore) (jwtEnv : Jwt)
    (authHeader : Option String)
    (h : authHeader = none ∨
      (∃ s, authHeader = some s ∧ jsStartsWith s "Bearer " = false) ∨
      (∃ s, authHeader = some s ∧ jsStartsWith s "Bearer " = true ∧
        (jsSplit s ' ').getD 1 "" = "")) :
    auth cfg store jwtEnv authHeader = .reject ⟨401, "Authorization token required"⟩ ∧
    optionalAuth cfg store jwtEnv authHeader = .proceed emptyCtx := by
  have hext : extractToken authHeader = none := by
    rcases h with h | ⟨s, rfl, hs⟩ | ⟨s, rfl, hs, ht⟩
    · rw [h]; rfl
    · unfold extractToken
      dsimp only
      rw [if_neg (by rw [hs]; exact Bool.false_ne_true)]
    · unfold extractToken
      dsimp only
      rw [if_pos hs, ht]
      rfl
  constructor
  · unfold auth; rw [hext]
  · unfold optionalAuth; rw [hext]

theorem header_failures_witness :
    auth ⟨none, none⟩ (fun _ => ⟨none, none⟩) (fun _ => ⟨none, none⟩) (some "Bearer ")
      = .reject ⟨401, "Authorization token required"⟩ ∧
    optionalAuth ⟨none, none⟩ (fun _ => ⟨none, none⟩) (fun _ => ⟨none, none⟩) (some "Bearer ")
      = .proceed emptyCtx :=
  header_failures ⟨none, none⟩ (fun _ => ⟨none, none⟩) (fun _ => ⟨none, none⟩)
    (some "Bearer ") (Or.inr (Or.inr ⟨"Bearer ", rfl, by decide, by decide⟩))


/-- Auxiliary: updating the dreams table by primary key commutes with the
primary-key lookup, since an update never changes a row id. -/
theorem find_map_dream_update (db : List Dream) (idParam : String) (u : DreamUpdates) :
    (db.map (fun x => if x.id == idParam then applyDreamUpdates x u else x)).find?
        (fun x => x.id == idParam)
      = (db.find? (fun x => x.id == idParam)).map (fun d => applyDreamUpdates d u) := by
  induction db with
  | nil => rfl
  | cons d rest ih =>
    cases hb : (d.id == idParam) with
    | true =>
      have h2 : ((applyDreamUpdates d u).id == idParam) = true := hb
      simp only [List.map_cons, hb, eq_self_iff_true, if_true, List.find?, h2]
      rfl
    | false =>
      simp only [List.map_cons, hb, Bool.false_eq_true, if_false, List.find?]
      exact ih

/-- Auxiliary: a restricted head field is dropped by the strip. -/
theorem strip_cons_drop (kh v : String) (rest : List (String × String))
    (hc : restrictedKeys.contains kh = true) :
    stripRestricted ((kh, v) :: rest) = stripRestricted rest := by
  unfold stripRestricted
  rw [List.filter_cons]
  dsimp only
  rw [hc]
  simp only [Bool.not_true, Bool.false_eq_true, if_false]

/-- Auxiliary: an unrestricted head field is kept by the strip. -/
theorem strip_cons_keep (kh v : String) (rest : List (String × String))
    (hc : restrictedKeys.contains kh = false) :
    stripRestricted ((kh, v) :: rest) = (kh, v) :: stripRestricted rest := by
  unfold stripRestricted
  rw [List.filter_cons]
  dsimp only
  rw [hc]
  simp only [Bool.not_false, if_true]

/-- Auxiliary: after stripping, a restricted key is never among the updates. -/
theorem lookup_strip_mem (body : List (String × String)) (k : String)
    (h : restrictedKeys.contains k = true) :
    (stripRestricted body).lookup k = none := by
  induction body with
  | nil => rfl
  | cons kv rest ih =>
    obtain ⟨kh, v⟩ := kv
    cases hc : restrictedKeys.contains kh with
    | true =>
      rw [strip_cons_drop kh v rest hc]
      exact ih
    | false =>
      have hne : (k == kh) = false := by
        refine beq_eq_false_iff_ne.mpr ?_
        intro he
        rw [he, hc] at h
        cases h
      rw [strip_cons_keep kh v rest hc]
      simp only [List.lookup, hne]
      exact ih

/-- Auxiliary: stripping leaves the value of an unrestricted key unchanged. -/
theorem lookup_strip_not_mem (body : List (String × String)) (k : String)
    (h : restrictedKeys.contains k = false) :
    (stripRestricted body).lookup k = body.lookup k := by
  induction body with
  | nil => rfl
  | cons kv rest ih =>
    obtain ⟨kh, v⟩ := kv
    cases hc : restrictedKeys.contains kh with
    | true =>
      have hne : (k == kh) = false := by
        refine beq_eq_false_iff_ne.mpr ?_
        intro he
        rw [he, hc] at h
        cases h
      rw [strip_cons_drop kh v rest hc]
      simp only [List.lookup, hne]
      exact ih
    | false =>
      rw [strip_cons_keep kh v rest hc]
      simp only [List.lookup]
      cases hk : (k == kh) with
      | true => rfl
      | false => exact ih


/-- C6: a token that verifies successfully but whose subject has no row in
the user store (`data = none`, whether or not the store also reports an
error) makes strict authentication fail 401 and optional authentication
continue anonymously. -/
theorem no_record_401_or_anonymous (cfg : Config) (store : UserStore) (jwtEnv : Jwt)
    (hdr tokStr s : String)
    (hx : extractToken (some hdr) = some tokStr)
    (hv : verifyStage cfg (jwtEnv tokStr) = .ok s)
    (hd : (store s).data = none) :
    auth cfg store jwtEnv (some hdr) = .reject ⟨401, "Invalid or expired token"⟩ ∧
    optionalAuth cfg store jwtEnv (some hdr) = .proceed emptyCtx := by
  constructor
  · unfold auth
    rw [hx]
    dsimp only
    unfold authInner
    rw [hv]
    dsimp only
    cases he : (store s).error with
    | some msg =>
      have hg : getUserById store s = .error ("Error fetching user: " ++ msg) := by
        unfold getUserById; rw [he]
      rw [hg]
    | none =>
      have hg : getUserById store s = .ok none := by
        unfold getUserById; rw [he, hd]
      rw [hg]
  · unfold optionalAuth
    rw [hx]
    dsimp only
    rw [optStage_of_stage hv]
    dsimp only
    cases he : (store s).error with
    | some msg =>
      have hg : getUserById store s = .error ("Error fetching user: " ++ msg) := by
        unfold getUserById; rw [he]
      rw [hg]
    | none =>
      have hg : getUserById store s = .ok none := by
        unfold getUserById; rw [he, hd]
      rw [hg]

/-- C6 witness at a concrete verified token whose subject the store does not
know. -/
theorem no_record_401_or_anonymous_witness :
    auth ⟨some "supsec", some "locsec"⟩ (fun _ => ⟨none, none⟩)
        (fun _ => ⟨some (.obj (some "u1") none), some "supsec"⟩) (some "Bearer tok")
      = .reject ⟨401, "Invalid or expired token"⟩ ∧
    optionalAuth ⟨some "supsec", some "locsec"⟩ (fun _ => ⟨none, none⟩)
        (fun _ => ⟨some (.obj (some "u1") none), some "supsec"⟩) (some "Bearer tok")
      = .proceed emptyCtx :=
  no_record_401_or_anonymous ⟨some "supsec", some "locsec"⟩ (fun _ => ⟨none, none⟩)
    (fun _ => ⟨some (.obj (some "u1") none), some "supsec"⟩)
    "Bearer tok" "tok" "u1" rfl rfl rfl

/-- C7: on either variant, a continued request carries `user` and `userId`
either both absent or both present; and a populated context comes from a
successful `getUserById` lookup whose row `u` satisfies `userId = u.id`. -/
theorem context_fields_invariant (cfg : Config) (store : UserStore) (jwtEnv : Jwt) (hdr : Option String) :
    (∀ ctx, auth cfg store jwtEnv hdr = .proceed ctx →
      ∃ s u, getUserById store s = .ok (some u) ∧ ctx.user = some u ∧ ctx.userId = some u.id) ∧
    (∀ ctx, optionalAuth cfg store jwtEnv hdr = .proceed ctx →
      (ctx.user = none ∧ ctx.userId = none) ∨
      ∃ s u, getUserById store s = .ok (some u) ∧ ctx.user = some u ∧ ctx.userId = some u.id) := by
  constructor
  · intro ctx h
    unfold auth at h
    cases hx : extractToken hdr with
    | none => rw [hx] at h; cases h
    | some tokStr =>
      rw [hx] at h
      dsimp only at h
      cases hi : authInner cfg store (jwtEnv tokStr) with
      | error e => rw [hi] at h; cases h
      | ok u =>
        rw [hi] at h
        dsimp only at h
        obtain ⟨s, hv, hg⟩ := authInner_ok_inv hi
        injection h with h2
        subst h2
        exact ⟨s, u, hg, rfl, rfl⟩
  · intro ctx h
    unfold optionalAuth at h
    cases hx : extractToken hdr with
    | none =>
      rw [hx] at h
      injection h with h2
      subst h2
      exact Or.inl ⟨rfl, rfl⟩
    | some tokStr =>
      rw [hx] at h
      dsimp only at h
      cases ho : optVerifyStage cfg (jwtEnv tokStr) with
      | none =>
        rw [ho] at h
        injection h with h2
        subst h2
        exact Or.inl ⟨rfl, rfl⟩
      | some s =>
        rw [ho] at h
        dsimp only at h
        cases hg : getUserById store s with
        | error m =>
          rw [hg] at h
          injection h with h2
          subst h2
          exact Or.inl ⟨rfl, rfl⟩
        | ok d =>
          rw [hg] at h
          cases d with
          | none =>
            injection h with h2
            subst h2
            exact Or.inl ⟨rfl, rfl⟩
          | some u =>
            injection h with h2
            subst h2
            exact Or.inr ⟨s, u, hg, rfl, rfl⟩

/-- C7 witness: a concrete strict-auth success, with the invariant facts
extracted through the theorem. -/
theorem context_fields_invariant_witness :
    ∃ s u,
      getUserById (fun uid => if uid == "u1" then ⟨some ⟨"u1", "a@b", some "user"⟩, none⟩
        else ⟨none, some "no rows"⟩) s = .ok (some u) ∧
      (Ctx.mk (some ⟨"u1", "a@b", some "user"⟩) (some "u1")).user = some u ∧
      (Ctx.mk (some ⟨"u1", "a@b", some "user"⟩) (some "u1")).userId = some u.id :=
  (context_fields_invariant ⟨some "supsec", some "locsec"⟩
      (fun uid => if uid == "u1" then ⟨some ⟨"u1", "a@b", some "user"⟩, none⟩
        else ⟨none, some "no rows"⟩)
      (fun _ => ⟨some (.obj (some "u1") none), some "supsec"⟩)
      (some "Bearer tok")).1
    ⟨some ⟨"u1", "a@b", some "user"⟩, some "u1"⟩ (by decide)

/-- C8 counterexample: a token carrying both a `sub` and an `id` claim with
no valid signature under any secret is accepted by `optionalAuth` (subject
taken from `sub`), so "the platform secret is the one used for verification"
fails for that variant — no secret is used at all. -/
theorem both_claims_accepted_without_verification :
    optionalAuth ⟨some "supsec", some "locsec"⟩
      (fun uid => if uid == "u1" then ⟨some ⟨"u1", "a@b", some "user"⟩, none⟩
        else ⟨none, some "no rows"⟩)
      (fun _ => ⟨some (.obj (some "u1") (some "u2")), none⟩)
      (some "Bearer tok")
      = .proceed ⟨some ⟨"u1", "a@b", some "user"⟩, some "u1"⟩ := by decide

/-- C8 (amended): both variants route a both-claims token by `sub`
precedence and never consult the local secret; strict verification is
exactly a check against the platform secret, while the optional variant
accepts the `sub` subject with no verification. -/
theorem sub_precedence_routing (cfg : Config) (t : Token) (s i : String) (hs : ¬ s = "")
    (hd : t.decoded = some (.obj (some s) (some i))) :
    verifyStage cfg t =
      (match cfg.supabaseJwtSecret with
        | none => .error (.api ⟨500, "Supabase JWT secret not configured"⟩)
        | some sec =>
          if verifyOk t sec then .ok s
          else .error (.api ⟨401, "Invalid or expired Supabase token"⟩)) ∧
    optVerifyStage cfg t = some s := by
  have htr : truthy (some s) = true := by
    unfold truthy
    simp [hs]
  constructor
  · unfold verifyStage
    rw [hd]
    dsimp only
    rw [if_pos htr]
    rfl
  · unfold optVerifyStage
    rw [hd]
    dsimp only
    rw [if_pos htr]
    rfl

/-- C8 witness at a concrete token carrying both claims and signed with the
platform secret. -/
theorem sub_precedence_routing_witness :
    verifyStage ⟨some "supsec", some "locsec"⟩
        ⟨some (.obj (some "u1") (some "u2")), some "supsec"⟩ = .ok "u1" ∧
    optVerifyStage ⟨some "supsec", some "locsec"⟩
        ⟨some (.obj (some "u1") (some "u2")), some "supsec"⟩ = some "u1" := by
  have h := sub_precedence_routing ⟨some "supsec", some "locsec"⟩
    ⟨some (.obj (some "u1") (some "u2")), some "supsec"⟩ "u1" "u2" (by decide) rfl
  exact ⟨h.1.trans (by rfl), h.2⟩


/-- C2 counterexample: a dream owned by `u1`, updated through
`PUT /api/dreams/:id` by an authenticated non-owner (`u2`, role `user`),
is persisted and returned with 200 — no 403, no ownership check. -/
theorem dream_update_by_non_owner_persists :
    dreamsPut [⟨"d1", "u1", "t", "x"⟩] ⟨some ⟨"u2", "e@f", some "user"⟩, some "u2"⟩ "d1"
        ⟨none, some "hacked", none⟩
      = ([⟨"d1", "u1", "hacked", "x"⟩], .ok ⟨"d1", "u1", "hacked", "x"⟩) := by rfl

/-- C2 (amended): the owner-or-admin guard protects the subscription
mutations (create, update, cancel) before anything is persisted, but the
dream mutations (update, delete) persist for every authenticated context. -/
theorem ownership_guard_scope :
    (∀ (subs : List Subscription) (profiles : List ProfileRow) (ctx : Ctx)
        (body : Subscription),
      ¬ some body.user_id = ctx.userId → isAdmin ctx = false →
      subsPost subs profiles ctx body
        = ((subs, profiles), .error ⟨403, "Cannot create subscription for another user"⟩)) ∧
    (∀ (subs : List Subscription) (profiles : List ProfileRow) (ctx : Ctx)
        (idParam : String) (body : SubUpdates) (s : Subscription),
      ¬ idParam = "" → subs.find? (fun x => x.id == idParam) = some s →
      ¬ some s.user_id = ctx.userId → isAdmin ctx = false →
      subsPut subs profiles ctx idParam body
        = ((subs, profiles), .error ⟨403, "Cannot update subscription for another user"⟩)) ∧
    (∀ (subs : List Subscription) (profiles : List ProfileRow) (ctx : Ctx)
        (idParam now : String) (s : Subscription),
      subs.find? (fun x => x.id == idParam) = some s →
      ¬ some s.user_id = ctx.userId → isAdmin ctx = false →
      subsCancel subs profiles ctx idParam now
        = ((subs, profiles), .error ⟨403, "Cannot cancel subscription for another user"⟩)) ∧
    (∀ (db : List Dream) (ctx : Ctx) (idParam : String) (body : DreamUpdates) (d0 : Dream),
      ¬ idParam = "" → db.find? (fun x => x.id == idParam) = some d0 →
      dreamsPut db ctx idParam body
        = (db.map (fun x => if x.id == idParam then applyDreamUpdates x (stripDreamUserId body) else x),
           .ok (applyDreamUpdates d0 (stripDreamUserId body)))) ∧
    (∀ (db : List Dream) (ctx : Ctx) (idParam : String),
      ¬ idParam = "" →
      dreamsDelete db ctx idParam = (db.filter (fun d => !(d.id == idParam)), .ok ())) := by
  refine ⟨?_, ?_, ?_, ?_, ?_⟩
  · intro subs profiles ctx body hne hadm
    have h1 : (some body.user_id == ctx.userId) = false := beq_eq_false_iff_ne.mpr hne
    unfold subsPost
    rw [h1, hadm]
    rfl
  · intro subs profiles ctx idParam body s hid hf hne hadm
    have hid' : (idParam == "") = false := beq_eq_false_iff_ne.mpr hid
    have h1 : (some s.user_id == ctx.userId) = false := beq_eq_false_iff_ne.mpr hne
    unfold subsPut
    rw [hid']
    dsimp only
    rw [hf]
    dsimp only
    rw [h1, hadm]
    rfl
  · intro subs profiles ctx idParam now s hf hne hadm
    have h1 : (some s.user_id == ctx.userId) = false := beq_eq_false_iff_ne.mpr hne
    unfold subsCancel
    rw [hf]
    dsimp only
    rw [h1, hadm]
    rfl
  · intro db ctx idParam body d0 hid hf
    have hid' : (idParam == "") = false := beq_eq_false_iff_ne.mpr hid
    unfold dreamsPut
    rw [hid']
    dsimp only
    rw [find_map_dream_update, hf]
    rfl
  · intro db ctx idParam hid
    have hid' : (idParam == "") = false := beq_eq_false_iff_ne.mpr hid
    unfold dreamsDelete
    rw [hid']
    rfl

/-- C2 witness: concrete 403 rejections for the subscription guards and a
concrete non-owner dream update that persists. -/
theorem ownership_guard_scope_witness :
    subsPost [] [] ⟨some ⟨"u2", "e@f", some "user"⟩, some "u2"⟩
        ⟨"s1", "u1", "pro", "9", "active", "2025-01-01", none⟩
      = (([], []), .error ⟨403, "Cannot create subscription for another user"⟩) ∧
    subsCancel [⟨"s1", "u1", "pro", "9", "active", "2025-01-01", none⟩] []
        ⟨some ⟨"u2", "e@f", some "user"⟩, some "u2"⟩ "s1" "2026-01-01"
      = (([⟨"s1", "u1", "pro", "9", "active", "2025-01-01", none⟩], []),
         .error ⟨403, "Cannot cancel subscription for another user"⟩) ∧
    dreamsPut [⟨"d1", "u1", "t", "x"⟩] ⟨some ⟨"u2", "e@f", some "user"⟩, some "u2"⟩ "d1"
        ⟨none, some "hacked", none⟩
      = ([⟨"d1", "u1", "hacked", "x"⟩], .ok ⟨"d1", "u1", "hacked", "x"⟩) :=
  ⟨ownership_guard_scope.1 [] [] ⟨some ⟨"u2", "e@f", some "user"⟩, some "u2"⟩
      ⟨"s1", "u1", "pro", "9", "active", "2025-01-01", none⟩ (by decide) (by decide),
   ownership_guard_scope.2.2.1 [⟨"s1", "u1", "pro", "9", "active", "2025-01-01", none⟩] []
      ⟨some ⟨"u2", "e@f", some "user"⟩, some "u2"⟩ "s1" "2026-01-01"
      ⟨"s1", "u1", "pro", "9", "active", "2025-01-01", none⟩ (by decide) (by decide) (by decide),
   (ownership_guard_scope.2.2.2.1 [⟨"d1", "u1", "t", "x"⟩] ⟨some ⟨"u2", "e@f", some "user"⟩, some "u2"⟩ "d1"
      ⟨none, some "hacked", none⟩ ⟨"d1", "u1", "t", "x"⟩ (by decide) (by decide)).trans (by rfl)⟩

/-- C9: the dream read endpoints enforce no ownership restriction — for any
authenticated context, `GET /api/dreams` returns the dreams of whatever user
id the query string supplies, and `GET /api/dreams/:id` returns any stored
dream found by primary key. -/
theorem dream_reads_unrestricted :
    (∀ (db : List Dream) (ctx : Ctx) (uid : String), ¬ uid = "" →
      getDreams db ctx (some uid) = .ok (db.filter (fun d => d.user_id == uid))) ∧
    (∀ (db : List Dream) (ctx : Ctx) (idParam : String) (d : Dream), ¬ idParam = "" →
      db.find? (fun x => x.id == idParam) = some d →
      getDreamById db ctx idParam = .ok d) := by
  constructor
  · intro db ctx uid h
    have htr : truthy (some uid) = true := by
      unfold truthy
      simp [h]
    unfold getDreams
    rw [if_pos htr]
    rfl
  · intro db ctx idParam d h hf
    have hid' : (idParam == "") = false := beq_eq_false_iff_ne.mpr h
    unfold getDreamById
    simp only [hid', Bool.false_eq_true, if_false]
    rw [hf]

/-- C9 witness: a requester authenticated as `u2` reads the dreams of `u1`
and fetches `u1`-owned dream `d1` by id. -/
theorem dream_reads_unrestricted_witness :
    getDreams [⟨"d1", "u1", "t", "x"⟩] ⟨some ⟨"u2", "e@f", some "user"⟩, some "u2"⟩ (some "u1")
      = .ok [⟨"d1", "u1", "t", "x"⟩] ∧
    getDreamById [⟨"d1", "u1", "t", "x"⟩] ⟨some ⟨"u2", "e@f", some "user"⟩, some "u2"⟩ "d1"
      = .ok ⟨"d1", "u1", "t", "x"⟩ :=
  ⟨(dream_reads_unrestricted.1 [⟨"d1", "u1", "t", "x"⟩] ⟨some ⟨"u2", "e@f", some "user"⟩, some "u2"⟩ "u1"
      (by decide)).trans (by rfl),
   dream_reads_unrestricted.2 [⟨"d1", "u1", "t", "x"⟩] ⟨some ⟨"u2", "e@f", some "user"⟩, some "u2"⟩ "d1"
      ⟨"d1", "u1", "t", "x"⟩ (by decide) (by decide)⟩

/-- C10: `PUT /api/profile` never changes `id`, `tier`, `is_premium`,
`created_at` or `updated_at` of the stored row, whatever the body contains,
and every other submitted field (and only those) is written. -/
theorem profile_put_restricted_frame (u : Option Identity) (uid : String) (row : String → String)
    (body : List (String × String)) :
    profilePut ⟨u, some uid⟩ row body = .ok (applyRowUpdates row (stripRestricted body)) ∧
    (∀ k, k ∈ restrictedKeys → applyRowUpdates row (stripRestricted body) k = row k) ∧
    (∀ k, ¬ k ∈ restrictedKeys →
      applyRowUpdates row (stripRestricted body) k
        = (match body.lookup k with | some v => v | none => row k)) := by
  refine ⟨rfl, ?_, ?_⟩
  · intro k hk
    unfold applyRowUpdates
    rw [lookup_strip_mem body k (by simpa using hk)]
  · intro k hk
    unfold applyRowUpdates
    rw [lookup_strip_not_mem body k (by simpa using hk)]

/-- C10 witness: a body submitting `tier` and `full_name` leaves `tier`
untouched and writes `full_name`. -/
theorem profile_put_restricted_frame_witness :
    applyRowUpdates (fun _ => "old") (stripRestricted [("tier", "pro"), ("full_name", "X")]) "tier"
      = "old" ∧
    applyRowUpdates (fun _ => "old") (stripRestricted [("tier", "pro"), ("full_name", "X")]) "full_name"
      = "X" :=
  ⟨(profile_put_restricted_frame none "u1" (fun _ => "old") [("tier", "pro"), ("full_name", "X")]).2.1 "tier" (by decide),
   ((profile_put_restricted_frame none "u1" (fun _ => "old") [("tier", "pro"), ("full_name", "X")]).2.2 "full_name"
      (by decide)).trans (by decide)⟩

end Oniric
